import Mathlib

/-!
# Verification of the deterministic decision core of `langgraph-salesforce-sap-demo`

Shallow embedding of the rule-based decision engine of the repository:

* `src/tools/scoring.py` — deterministic lead scoring and routing,
* `src/tools/kb.py` — rule-based ticket categorization and action decision,
* `src/graphs/lead_graph.py` / `src/graphs/ticket_graph.py` — the hybrid
  (LLM-or-rules) decision nodes,
* `src/models/state.py` — the workflow state schemas and their per-field
  merge behaviour.

Modelling conventions:

* Python floats carrying small decimal fractions are modelled as exact
  rationals (`ℚ`); every constant of the code base is an exact decimal, and
  all verified properties are insensitive to the float/rational distinction.
* Python dictionaries with a fixed key set (`TypedDict`) are modelled as
  structures; keys that may be absent (`total=False`) become `Option` fields.
* A raised Python exception from the external LLM call is modelled as
  `Except.error`; a returned value as `Except.ok`.
* Regular-expression matching (`re.search(pattern, text)`) is abstracted by a
  match oracle `m : String → Bool` telling which of the finitely many fixed
  patterns match the (fixed) input text; every input text induces one oracle.
-/

/-- Python `round(x, d)` (rounding to `d` decimal places).  Python rounds
half-to-even; every value this code base rounds is an exact multiple of
`10 ^ (-d)`, on which the two conventions coincide, so half-up is used. -/
def roundTo (d : ℕ) (q : ℚ) : ℚ := ((round (q * (10 ^ d : ℚ)) : ℤ) : ℚ) / (10 ^ d : ℚ)

/-- Zero-pad a digit string on the left to length `d`. -/
def padZeros (d : ℕ) (s : String) : String :=
  String.mk (List.replicate (d - s.length) '0') ++ s

/-- Python fixed-point formatting `f"{q:.df}"`. -/
def fmtFixed (d : ℕ) (q : ℚ) : String :=
  let sgn := if q < 0 then "-" else ""
  let n := (round (|q| * (10 ^ d : ℚ))).toNat
  sgn ++ toString (n / 10 ^ d) ++ "." ++ padZeros d (toString (n % 10 ^ d))

/-- `l₁` occurs as a contiguous run inside `l₂`. -/
def containsRun [BEq α] (needle : List α) : List α → Bool
  | [] => needle.isPrefixOf []
  | c :: cs => needle.isPrefixOf (c :: cs) || containsRun needle cs

/-- Python substring test `needle in hay`. -/
def strContains (hay needle : String) : Bool := containsRun needle.toList hay.toList

/-- Python `str.lower()` (character-wise lowering; all strings involved are
ASCII). -/
def pyLower (s : String) : String := String.mk (s.data.map Char.toLower)

/-- Python `table.get(key, dflt)` for a string-keyed table. -/
def lookupD (table : List (String × ℚ)) (key : String) (dflt : ℚ) : ℚ :=
  ((table.find? (fun kv => kv.1 == key)).map Prod.snd).getD dflt

/-!
## `src/tools/scoring.py` — deterministic lead scoring

The nested `SCORING_WEIGHTS` dictionary is flattened into one definition per
entry; values are the exact decimals of the source, written as fractions.
-/

/-- `SCORING_WEIGHTS["employees"]["ranges"]`. -/
def employeeRanges : List (ℚ × ℚ) :=
  [(1000, 1), (500, 9/10), (100, 7/10), (50, 1/2), (10, 3/10), (0, 1/10)]

/-- `SCORING_WEIGHTS["employees"]["weight"]` (`0.20`). -/
def employeeWeight : ℚ := 1/5

/-- `SCORING_WEIGHTS["revenue"]["ranges"]`. -/
def revenueRanges : List (ℚ × ℚ) :=
  [(10000000, 1), (5000000, 9/10), (1000000, 7/10), (500000, 1/2), (100000, 3/10), (0, 1/10)]

/-- `SCORING_WEIGHTS["revenue"]["weight"]` (`0.20`). -/
def revenueWeight : ℚ := 1/5

/-- `SCORING_WEIGHTS["rating"]["values"]`. -/
def ratingValues : List (String × ℚ) := [("Hot", 1), ("Warm", 7/10), ("Cold", 3/10)]

/-- `SCORING_WEIGHTS["rating"]["default"]` (`0.5`). -/
def ratingDefault : ℚ := 1/2

/-- `SCORING_WEIGHTS["rating"]["weight"]` (`0.25`). -/
def ratingWeight : ℚ := 1/4

/-- `SCORING_WEIGHTS["source"]["values"]`. -/
def sourceValues : List (String × ℚ) :=
  [("Customer Referral", 1), ("Partner", 9/10), ("Employee Referral", 17/20),
   ("Web", 7/10), ("Webinar", 13/20), ("Trade Show", 3/5), ("Advertisement", 1/2),
   ("Cold Call", 2/5), ("Other", 3/10)]

/-- `SCORING_WEIGHTS["source"]["default"]` (`0.5`). -/
def sourceDefault : ℚ := 1/2

/-- `SCORING_WEIGHTS["source"]["weight"]` (`0.15`). -/
def sourceWeight : ℚ := 3/20

/-- `SCORING_WEIGHTS["title"]["keywords"]`. -/
def titleKeywords : List (String × ℚ) :=
  [("ceo", 1), ("cto", 1), ("cfo", 1), ("cio", 1), ("chief", 1),
   ("president", 19/20), ("owner", 19/20), ("founder", 19/20),
   ("vp", 17/20), ("vice president", 17/20), ("director", 3/4), ("head", 3/4),
   ("senior", 13/20), ("manager", 11/20), ("lead", 1/2),
   ("engineer", 2/5), ("analyst", 7/20)]

/-- `SCORING_WEIGHTS["title"]["default"]` (`0.3`). -/
def titleDefault : ℚ := 3/10

/-- `SCORING_WEIGHTS["title"]["weight"]` (`0.10`). -/
def titleWeight : ℚ := 1/10

/-- `SCORING_WEIGHTS["sap_enrichment"]["has_bp"]` (`0.05`). -/
def sapHasBp : ℚ := 1/20

/-- `SCORING_WEIGHTS["sap_enrichment"]["good_credit"]` (`0.05`). -/
def sapGoodCredit : ℚ := 1/20

/-- `SCORING_WEIGHTS["sap_enrichment"]["active_customer"]` (`0.05`). -/
def sapActiveCustomer : ℚ := 1/20

/-- `scoring._score_range`: first threshold (scanning in order) that the value
reaches wins; below every threshold the score is `0.0`. -/
def score_range (value : ℚ) : List (ℚ × ℚ) → ℚ
  | [] => 0
  | (threshold, s) :: rest => if value ≥ threshold then s else score_range value rest

/-- `scoring._score_title`: best substring-matching seniority keyword, with the
default `0.3` for an empty title or no match. -/
def score_title (title : String) : ℚ :=
  if title = "" then titleDefault
  else
    let tl := pyLower title
    let best := titleKeywords.foldl (fun b ks => if strContains tl ks.1 then max b ks.2 else b) 0
    if 0 < best then best else titleDefault

/-- `LeadData` (`src/models/state.py`, `total=False`): the fields the decision
core reads.  An absent key is `none`; the empty Salesforce lead dict `{}` is
the all-`none` record (see `LeadData.isEmpty`). -/
structure LeadData where
  Id : Option String := none
  Company : Option String := none
  Title : Option String := none
  Industry : Option String := none
  LeadSource : Option String := none
  Rating : Option String := none
  AnnualRevenue : Option ℚ := none
  NumberOfEmployees : Option ℚ := none
  Description : Option String := none
deriving DecidableEq

/-- `EnrichedData` (`src/models/state.py`): the SAP enrichment fields the
scorer reads. -/
structure EnrichedData where
  business_partner_id : Option String := none
  credit_rating : Option String := none
  account_status : Option String := none
  total_orders : Option ℚ := none
  total_revenue : Option ℚ := none
deriving DecidableEq

/-- Python truthiness of the enrichment dict: empty (`{}` — falsy) iff no key
is present. -/
def EnrichedData.isEmpty (e : EnrichedData) : Bool :=
  e.business_partner_id.isNone && e.credit_rating.isNone && e.account_status.isNone &&
  e.total_orders.isNone && e.total_revenue.isNone

/-- The SAP enrichment bonus of `calculate_lead_score` (guarded by
`if enriched:`, then three independent `+= 0.05` bonuses). -/
def sapBonusOf (enriched : EnrichedData) : ℚ :=
  if enriched.isEmpty then 0
  else
    (if (enriched.business_partner_id.getD "") ≠ "" then sapHasBp else 0) +
    (if enriched.credit_rating = some "A" ∨ enriched.credit_rating = some "A+" then sapGoodCredit
     else 0) +
    (if enriched.account_status = some "Active" then sapActiveCustomer else 0)

/-- Result of `scoring.calculate_lead_score`.  `components` keeps, per
component name in insertion order, the raw factor and the weighted value (the
`value` echo of the input is dropped — no caller reads it). -/
structure LeadScoreResult where
  total_score : ℚ
  base_score : ℚ
  sap_bonus : ℚ
  components : List (String × ℚ × ℚ)
deriving DecidableEq

/-- `scoring.calculate_lead_score`: deterministic weighted-bucket lead score. -/
def calculate_lead_score (lead : LeadData) (enriched : EnrichedData) : LeadScoreResult :=
  let emp_score := score_range (lead.NumberOfEmployees.getD 0) employeeRanges
  let rev_score := score_range (lead.AnnualRevenue.getD 0) revenueRanges
  let rat_score := lookupD ratingValues (lead.Rating.getD "") ratingDefault
  let src_score := lookupD sourceValues (lead.LeadSource.getD "") sourceDefault
  let title_score := score_title (lead.Title.getD "")
  let base_score := emp_score * employeeWeight + rev_score * revenueWeight +
    rat_score * ratingWeight + src_score * sourceWeight + title_score * titleWeight
  let sap_bonus := sapBonusOf enriched
  { total_score := roundTo 4 (min (base_score + sap_bonus) 1)
    base_score := roundTo 4 base_score
    sap_bonus := roundTo 4 sap_bonus
    components := [("employees", emp_score, emp_score * employeeWeight),
                   ("revenue", rev_score, rev_score * revenueWeight),
                   ("rating", rat_score, rat_score * ratingWeight),
                   ("source", src_score, src_score * sourceWeight),
                   ("title", title_score, title_score * titleWeight),
                   ("sap_bonus", sap_bonus, sap_bonus)] }

/-- Output of `scoring.determine_routing`. -/
structure RoutingDecision where
  owner_type : String
  priority : String
  reason : String
deriving DecidableEq

/-- `scoring.determine_routing`: score-band routing (`≥ 0.75` → AE/P1,
`≥ 0.45` → SDR/P2, below → Nurture/P3). -/
def determine_routing (score : ℚ) : RoutingDecision :=
  if score ≥ 3/4 then
    { owner_type := "AE", priority := "P1",
      reason := "High-value lead (score: " ++ fmtFixed 2 score ++ ") - immediate AE engagement" }
  else if score ≥ 9/20 then
    { owner_type := "SDR", priority := "P2",
      reason := "Qualified lead (score: " ++ fmtFixed 2 score ++ ") - SDR qualification needed" }
  else
    { owner_type := "Nurture", priority := "P3",
      reason := "Early-stage lead (score: " ++ fmtFixed 2 score ++ ") - nurture campaign" }

/-- `scoring.INDUSTRY_MULTIPLIERS`. -/
def INDUSTRY_MULTIPLIERS : List (String × ℚ) :=
  [("Technology", 11/10), ("Software", 11/10), ("Financial Services", 23/20),
   ("Healthcare", 11/10), ("Manufacturing", 21/20), ("Retail", 1), ("Education", 19/20),
   ("Government", 1), ("Non-Profit", 17/20)]

/-- `scoring.apply_industry_adjustment`: multiplicative adjustment, capped at
`1.0`.  (Not called by `calculate_lead_score` nor by any graph node.) -/
def apply_industry_adjustment (base_score : ℚ) (industry : String) : ℚ :=
  min (base_score * lookupD INDUSTRY_MULTIPLIERS industry 1) 1

/-!
## `src/tools/kb.py` — rule-based ticket categorization and decision

`re.search` over the fixed pattern table is abstracted by an oracle
`m : String → Bool` giving each pattern's match outcome on the (fixed) input
text; the scoring, winner-selection and decision logic is embedded verbatim.
-/

/-- One entry of `kb.CATEGORY_PATTERNS`. -/
structure CatEntry where
  name : String
  patterns : List String
  priority_boost : Bool
  weight : ℚ

/-- `kb.CATEGORY_PATTERNS`, in declaration order. -/
def CATEGORY_PATTERNS : List CatEntry :=
  [{ name := "security",
     patterns := ["\\b(hack|breach|unauthorized|suspicious|security)\\b",
                  "\\b(attack|compromise|intrusion|malware|virus)\\b",
                  "\\b(phishing|scam|fraud|identity)\\b",
                  "\\bunauthorized\\s+access\\b",
                  "\\bsecurity\\s+(concern|issue|problem|alert)\\b"],
     priority_boost := true, weight := 1 },
   { name := "outage",
     patterns := ["\\b(down|outage|unavailable|not\\s+working)\\b",
                  "\\b(error|crash|fail|broken)\\b",
                  "\\b(urgent|emergency|critical|production)\\b",
                  "\\bsystem\\s+(down|not\\s+responding)\\b",
                  "\\bcan\x27?t\\s+(access|connect|reach|load)\\b"],
     priority_boost := true, weight := 19/20 },
   { name := "billing",
     patterns := ["\\b(invoice|bill|charge|payment)\\b",
                  "\\b(price|cost|fee|discount)\\b",
                  "\\b(refund|credit|overcharge)\\b",
                  "\\b(subscription|renewal|cancel)\\b",
                  "\\bdiscrepancy\\b"],
     priority_boost := false, weight := 17/20 },
   { name := "howto",
     patterns := ["\\b(how\\s+(do|can|to)|what\\s+is)\\b",
                  "\\b(help|guide|tutorial|instructions)\\b",
                  "\\b(setup|configure|enable|disable)\\b",
                  "\\b(password|login|account|profile)\\b",
                  "\\bstep\\s*-?\\s*by\\s*-?\\s*step\\b"],
     priority_boost := false, weight := 7/10 }]

/-- The `category_scores` dict of `kb.categorize_ticket` under match oracle
`m`: only categories with at least one matched pattern get an entry, in
declaration order, scored `(matches / patterns) * weight`. -/
def categoryScores (m : String → Bool) : List (String × ℚ) :=
  CATEGORY_PATTERNS.filterMap fun e =>
    let ms := e.patterns.filter m
    if ms.isEmpty then none
    else some (e.name, ((ms.length : ℚ) / (e.patterns.length : ℚ)) * e.weight)

/-- Python `max(xs, key=...)` over an association list: the first entry whose
value no later entry strictly exceeds (later entries replace the running
maximum only on strict `>`). -/
def pickBest : Option (String × ℚ) → List (String × ℚ) → Option (String × ℚ)
  | acc, [] => acc
  | none, x :: xs => pickBest (some x) xs
  | some a, x :: xs => if x.2 > a.2 then pickBest (some x) xs else pickBest (some a) xs

/-- The matched-pattern list of a category under oracle `m`
(`matched_patterns.get(c, [])`). -/
def matchedFor (m : String → Bool) (c : String) : List String :=
  ((CATEGORY_PATTERNS.find? (fun e => e.name == c)).map (fun e => e.patterns.filter m)).getD []

/-- `CATEGORY_PATTERNS.get(c, {}).get("priority_boost", False)`. -/
def boostFor (c : String) : Bool :=
  ((CATEGORY_PATTERNS.find? (fun e => e.name == c)).map CatEntry.priority_boost).getD false

/-- Result dict of `kb.categorize_ticket`. -/
structure KBResult where
  category : String
  confidence : ℚ
  all_scores : List (String × ℚ)
  matched_patterns : List String
  requires_escalation : Bool
deriving DecidableEq

namespace Kb

/-- `kb.categorize_ticket` under match oracle `m`: weighted pattern scoring,
first-maximum winner, `("other", 0.5)` when nothing matches, confidence
rounded to 3 decimal places. -/
def categorize_ticket (m : String → Bool) : KBResult :=
  let category_scores := categoryScores m
  match pickBest none category_scores with
  | some (c, s) =>
      { category := c, confidence := roundTo 3 s, all_scores := category_scores,
        matched_patterns := matchedFor m c, requires_escalation := boostFor c }
  | none =>
      { category := "other", confidence := roundTo 3 (1/2), all_scores := category_scores,
        matched_patterns := matchedFor m "other", requires_escalation := boostFor "other" }

end Kb

/-- `KBSuggestion` (`src/models/state.py`). -/
structure KBSuggestion where
  article_id : String
  title : String
  relevance_score : ℚ
  summary : String
  url : String
deriving DecidableEq

/-- Python `str.upper()` (character-wise, ASCII). -/
def pyUpper (s : String) : String := String.mk (s.data.map Char.toUpper)

/-- `kb.RESPONSE_TEMPLATES["howto"]["auto_reply"]`. -/
def howtoAutoReplyTemplate : String :=
  "Thank you for contacting support.\n\nBased on your question, I found some helpful resources that may assist you:\n\n{kb_articles}\n\nIf these articles don\x27t answer your question, please reply to this message and a support representative will follow up within 24 hours.\n\nBest regards,\nSupport Team"

/-- `kb.RESPONSE_TEMPLATES["billing"]["info_request"]`. -/
def billingInfoRequestTemplate : String :=
  "Thank you for contacting our billing department.\n\nTo assist you with your billing inquiry, please provide:\n1. Invoice number or date range\n2. Specific line items in question\n3. Your expected amount vs. charged amount\n\nOur billing team will review your case within 1-2 business days.\n\nBest regards,\nBilling Support"

/-- `kb.RESPONSE_TEMPLATES["outage"]["escalation"]`. -/
def outageEscalationTemplate : String :=
  "[ESCALATED - SYSTEM OUTAGE]\n\nThis ticket has been automatically escalated to our incident response team.\n\nCurrent system status: https://status.example.com\nIncident updates will be posted to the status page.\n\nIf this is affecting production systems, our on-call engineer has been notified.\n\nTicket Priority: HIGH"

/-- `kb.RESPONSE_TEMPLATES["security"]["escalation"]`. -/
def securityEscalationTemplate : String :=
  "[ESCALATED - SECURITY CONCERN]\n\nThis ticket has been automatically escalated to our Security Operations team.\n\nDO NOT share any sensitive information in this ticket.\n\nA security analyst will contact you within 1 hour during business hours.\nFor critical security issues, call our security hotline: 1-800-XXX-XXXX\n\nTicket Priority: CRITICAL"

/-- `kb.RESPONSE_TEMPLATES["other"]["info_request"]`. -/
def otherInfoRequestTemplate : String :=
  "Thank you for contacting support.\n\nWe\x27ve received your request and need some additional information to assist you:\n1. Please describe the issue in more detail\n2. What were you trying to accomplish?\n3. Any error messages or screenshots would be helpful\n\nA support representative will follow up within 24-48 hours.\n\nBest regards,\nSupport Team"

/-- `kb.RESPONSE_TEMPLATES`: per category, the `auto_reply` / `info_request` /
`escalation` entries that are present, `none` standing for Python `None`. -/
def RESPONSE_TEMPLATES : List (String × List (String × Option String)) :=
  [("howto", [("auto_reply", some howtoAutoReplyTemplate), ("info_request", none)]),
   ("billing", [("auto_reply", none), ("info_request", some billingInfoRequestTemplate)]),
   ("outage", [("auto_reply", none), ("info_request", none),
               ("escalation", some outageEscalationTemplate)]),
   ("security", [("auto_reply", none), ("info_request", none),
                 ("escalation", some securityEscalationTemplate)]),
   ("other", [("auto_reply", none), ("info_request", some otherInfoRequestTemplate)])]

/-- `kb.get_response_template`: the category's table (falling back to
`"other"`), then `.get(action)` (absent key and stored `None` both give
`none`). -/
def get_response_template (category action : String) : Option String :=
  let templates := ((RESPONSE_TEMPLATES.find? (fun kv => kv.1 == category)).map Prod.snd).getD
    (((RESPONSE_TEMPLATES.find? (fun kv => kv.1 == "other")).map Prod.snd).getD [])
  (((templates.find? (fun kv => kv.1 == action)).map Prod.snd).getD none)

/-- The numbered lines built by `kb.format_kb_articles_for_response`. -/
def kbArticleLines : ℕ → List KBSuggestion → List String
  | _, [] => []
  | i, a :: rest =>
      (toString i ++ ". **" ++ a.title ++ "**") :: ("   " ++ a.summary) ::
      ("   Read more: " ++ a.url) :: "" :: kbArticleLines (i + 1) rest

/-- `kb.format_kb_articles_for_response`. -/
def format_kb_articles_for_response (articles : List KBSuggestion) : String :=
  if articles.isEmpty then
    "No specific articles found. Please describe your question in more detail."
  else
    String.intercalate "\n" (kbArticleLines 1 articles)

/-- `TicketDecision` (`src/models/state.py`). -/
structure TicketDecision where
  action : String
  owner_id : Option String
  response_template : Option String
  escalation_reason : Option String
  priority_change : Option String
deriving DecidableEq

/-- `kb.determine_ticket_action`: category-driven action decision. -/
def determine_ticket_action (category : String) (kb_suggestions : List KBSuggestion) :
    TicketDecision :=
  if category = "howto" ∧ kb_suggestions ≠ [] then
    match get_response_template "howto" "auto_reply" with
    | some template =>
        { action := "auto_reply", owner_id := none,
          response_template :=
            some (template.replace "{kb_articles}" (format_kb_articles_for_response kb_suggestions)),
          escalation_reason := none, priority_change := none }
    | none =>
        { action := "", owner_id := none, response_template := none,
          escalation_reason := none, priority_change := none }
  else if category = "billing" then
    { action := "request_info", owner_id := none,
      response_template := get_response_template "billing" "info_request",
      escalation_reason := none, priority_change := none }
  else if category = "outage" ∨ category = "security" then
    { action := "escalate", owner_id := none,
      response_template := get_response_template category "escalation",
      escalation_reason := some ("Auto-escalated: " ++ pyUpper category ++ " category detected"),
      priority_change := some (if category = "outage" then "High" else "Critical") }
  else
    { action := "request_info", owner_id := none,
      response_template := get_response_template "other" "info_request",
      escalation_reason := none, priority_change := none }

/-!
## `src/models/state.py` — workflow state and merge semantics
-/

/-- Python truthiness of the lead dict (`if not lead:` in `score_lead`):
empty iff no key is present. -/
def LeadData.isEmpty (l : LeadData) : Bool :=
  l.Id.isNone && l.Company.isNone && l.Title.isNone && l.Industry.isNone &&
  l.LeadSource.isNone && l.Rating.isNone && l.AnnualRevenue.isNone &&
  l.NumberOfEmployees.isNone && l.Description.isNone

/-- `LLMLeadAnalysis` (`src/models/state.py`, `total=False`). -/
structure LLMLeadAnalysis where
  reasoning : Option String := none
  confidence : Option ℚ := none
  key_factors : Option (List String) := none
  recommended_action : Option String := none
  model_used : Option String := none
deriving DecidableEq

/-- `RouteDecision` (`src/models/state.py`, all fields required). -/
structure RouteDecision where
  owner_id : String
  owner_type : String
  priority : String
  reason : String
deriving DecidableEq

/-- `LeadState` (`src/models/state.py`): the full state threaded through the
lead-qualification graph. -/
structure LeadState where
  lead : LeadData
  enriched : EnrichedData
  score : ℚ
  route : RouteDecision
  llm_analysis : LLMLeadAnalysis
  use_llm : Bool
  actions_done : List String
deriving DecidableEq

/-- A partial state update returned by one lead-graph node: `none` = key
absent from the returned dict; `actions_done` contributes a (possibly empty)
list to the append channel. -/
structure LeadUpdate where
  lead : Option LeadData := none
  enriched : Option EnrichedData := none
  score : Option ℚ := none
  route : Option RouteDecision := none
  llm_analysis : Option LLMLeadAnalysis := none
  use_llm : Option Bool := none
  actions_done : List String := []
deriving DecidableEq

/-- Modelled from the spec: the per-field merge the workflow engine (the
external `langgraph` library) applies after each step, with the field kinds
declared in `src/models/state.py` — every plain field is replace-on-write
(last writer wins), and `actions_done`, declared `Annotated[list[str], add]`,
concatenates each step's contribution. -/
def mergeLead (s : LeadState) (u : LeadUpdate) : LeadState :=
  { lead := u.lead.getD s.lead
    enriched := u.enriched.getD s.enriched
    score := u.score.getD s.score
    route := u.route.getD s.route
    llm_analysis := u.llm_analysis.getD s.llm_analysis
    use_llm := u.use_llm.getD s.use_llm
    actions_done := s.actions_done ++ u.actions_done }

/-- A pipeline run: the ordered step outputs merged left to right into the
initial state. -/
def runLead (s : LeadState) (updates : List LeadUpdate) : LeadState :=
  updates.foldl mergeLead s

/-- `CaseData` (`src/models/state.py`, `total=False`): the fields the triage
core reads. -/
structure CaseData where
  Id : Option String := none
  CaseNumber : Option String := none
  Subject : Option String := none
  Description : Option String := none
  Status : Option String := none
  Priority : Option String := none
  Origin : Option String := none
  AccountId : Option String := none
deriving DecidableEq

/-- `SAPOrderContext` (`src/models/state.py`).  The order lists are carried
opaquely — the embedded decision core only ever reads their lengths. -/
structure SAPOrderContext where
  sales_orders : Option ℕ := none
  service_orders : Option ℕ := none
  business_partner_id : Option String := none
  has_open_orders : Option Bool := none
  total_order_value : Option ℚ := none
deriving DecidableEq

/-- `LLMTicketAnalysis` (`src/models/state.py`, `total=False`). -/
structure LLMTicketAnalysis where
  reasoning : Option String := none
  confidence : Option ℚ := none
  urgency : Option String := none
  sentiment : Option String := none
  suggested_response : Option String := none
  requires_escalation : Option Bool := none
  model_used : Option String := none
deriving DecidableEq

/-- `TicketState` (`src/models/state.py`): the full state threaded through the
ticket-triage graph. -/
structure TicketState where
  case : CaseData
  category : String
  sap_context : SAPOrderContext
  kb_suggestions : List KBSuggestion
  decision : TicketDecision
  llm_analysis : LLMTicketAnalysis
  use_llm : Bool
  actions_done : List String
deriving DecidableEq

/-- A partial state update returned by one ticket-graph node. -/
structure TicketUpdate where
  case : Option CaseData := none
  category : Option String := none
  sap_context : Option SAPOrderContext := none
  kb_suggestions : Option (List KBSuggestion) := none
  decision : Option TicketDecision := none
  llm_analysis : Option LLMTicketAnalysis := none
  use_llm : Option Bool := none
  actions_done : List String := []
deriving DecidableEq

/-- Modelled from the spec: the ticket-graph merge, replace-on-write for plain
fields and concatenation for the `Annotated[list[str], add]` channel
`actions_done` (`src/models/state.py`). -/
def mergeTicket (s : TicketState) (u : TicketUpdate) : TicketState :=
  { case := u.case.getD s.case
    category := u.category.getD s.category
    sap_context := u.sap_context.getD s.sap_context
    kb_suggestions := u.kb_suggestions.getD s.kb_suggestions
    decision := u.decision.getD s.decision
    llm_analysis := u.llm_analysis.getD s.llm_analysis
    use_llm := u.use_llm.getD s.use_llm
    actions_done := s.actions_done ++ u.actions_done }

/-- A ticket pipeline run: ordered step outputs merged left to right. -/
def runTicket (s : TicketState) (updates : List TicketUpdate) : TicketState :=
  updates.foldl mergeTicket s

/-- `TicketCategory.OTHER` (`src/models/state.py`). -/
def TicketCategoryOTHER : String := "other"

/-!
## The hybrid decision nodes (`src/graphs/lead_graph.py`,
`src/graphs/ticket_graph.py`)

The external LLM call is a parameter: `Except.ok r` models
`score_lead_with_llm` / `categorize_ticket_with_llm` returning `r`,
`Except.error e` models it raising an exception with message `e` (caught by
the node's `except Exception` handler).
-/

/-- The dict returned by `llm.score_lead_with_llm` (keys filled at
`llm.py:546-553`). -/
structure LLMScoreResult where
  score : ℚ
  confidence : ℚ
  priority : String
  reasoning : String
  key_factors : List String
  recommended_action : String
deriving DecidableEq

/-- The dict returned by `llm.categorize_ticket_with_llm`
(`TicketCategoryOutput`). -/
structure LLMTicketResult where
  category : String
  confidence : ℚ
  urgency : String
  reasoning : String
  sentiment : String
  suggested_response : String
  requires_escalation : Bool
deriving DecidableEq

namespace LeadGraph

/-- `lead_graph.score_lead` (node 3): empty-lead short-circuit, then the
LLM path when `use_llm` and the call returns, otherwise the rule-based
(default or exception-fallback) path. -/
def score_lead (lead : LeadData) (enriched : EnrichedData) (use_llm : Bool)
    (smart : Except String LLMScoreResult) : LeadUpdate :=
  if lead.isEmpty then
    { score := some 0,
      llm_analysis := some { reasoning := some "No lead data provided" },
      actions_done := ["score_lead:no_lead"] }
  else
    match use_llm, smart with
    | true, .ok r =>
        { score := some r.score,
          llm_analysis := some
            { reasoning := some r.reasoning, confidence := some r.confidence,
              key_factors := some r.key_factors,
              recommended_action := some r.recommended_action,
              model_used := some "gpt-4o-mini" },
          actions_done := ["score_lead:llm:score=" ++ fmtFixed 4 r.score] }
    | _, _ =>
        let score_result := calculate_lead_score lead enriched
        { score := some score_result.total_score,
          llm_analysis := some {
            reasoning := some ("Rule-based scoring. Base: " ++ fmtFixed 2 score_result.base_score
              ++ ", SAP bonus: " ++ fmtFixed 2 score_result.sap_bonus),
            confidence := some 1,
            key_factors := some ((score_result.components.map Prod.fst).take 3),
            recommended_action := some "Follow standard lead handling process",
            model_used := some "rule-based" },
          actions_done := ["score_lead:rules:score=" ++ fmtFixed 4 score_result.total_score] }

end LeadGraph

namespace TicketGraph

/-- `ticket_graph.categorize_ticket` (node 2): no-content short-circuit, then
the LLM path when `use_llm` and the call returns, otherwise the rule-based
(default or exception-fallback) path.  `m` is the pattern-match oracle for the
case's combined text (the Lean `toString` of the matched-pattern list stands
in for Python's list repr inside the reasoning string). -/
def categorize_ticket (case : CaseData) (use_llm : Bool)
    (smart : Except String LLMTicketResult) (m : String → Bool) : TicketUpdate :=
  let subject := case.Subject.getD ""
  let description := case.Description.getD ""
  if subject = "" ∧ description = "" then
    { category := some TicketCategoryOTHER,
      llm_analysis := some { reasoning := some "No content provided" },
      actions_done := ["categorize_ticket:no_content"] }
  else
    match use_llm, smart with
    | true, .ok r =>
        { category := some r.category,
          llm_analysis := some
            { reasoning := some r.reasoning, confidence := some r.confidence,
              urgency := some r.urgency, sentiment := some r.sentiment,
              suggested_response := some r.suggested_response,
              requires_escalation := some r.requires_escalation,
              model_used := some "gpt-4o-mini" },
          actions_done := ["categorize_ticket:llm:" ++ r.category ++ ":" ++ fmtFixed 2 r.confidence] }
    | _, _ =>
        let result := Kb.categorize_ticket m
        { category := some result.category,
          llm_analysis := some {
            reasoning := some ("Rule-based categorization. Matched patterns: "
              ++ toString (result.matched_patterns.take 2)),
            confidence := some result.confidence,
            urgency := some (if result.requires_escalation then "high" else "medium"),
            sentiment := some "neutral",
            suggested_response := some "",
            requires_escalation := some result.requires_escalation,
            model_used := some "rule-based" },
          actions_done := ["categorize_ticket:rules:" ++ result.category ++ ":"
            ++ fmtFixed 2 result.confidence] }

end TicketGraph

/-!
## Rounding and bound lemmas
-/

lemma roundTo_mono {d : ℕ} {a b : ℚ} (h : a ≤ b) : roundTo d a ≤ roundTo d b := by
  unfold roundTo
  have hp : (0:ℚ) < 10 ^ d := by positivity
  have hr : round (a * 10 ^ d) ≤ round (b * 10 ^ d) := by
    rw [round_eq, round_eq]
    exact Int.floor_mono (by nlinarith)
  gcongr

lemma roundTo_nonneg {d : ℕ} {q : ℚ} (h : 0 ≤ q) : 0 ≤ roundTo d q := by
  have h0 : roundTo d 0 = 0 := by simp [roundTo]
  calc (0:ℚ) = roundTo d 0 := h0.symm
  _ ≤ roundTo d q := roundTo_mono h

lemma roundTo_le_of_le_int {d : ℕ} {q c : ℚ} (n : ℤ) (hc : c * 10 ^ d = (n : ℚ))
    (h : q ≤ c) : roundTo d q ≤ c := by
  have hp : (0:ℚ) < 10 ^ d := by positivity
  have hcn : roundTo d c = c := by
    unfold roundTo
    rw [hc, round_intCast]
    field_simp at hc ⊢
    linarith [hc]
  calc roundTo d q ≤ roundTo d c := roundTo_mono h
  _ = c := hcn

lemma score_range_employee_bounds (v : ℚ) :
    0 ≤ score_range v employeeRanges ∧ score_range v employeeRanges ≤ 1 := by
  simp only [employeeRanges, score_range]
  split_ifs <;> norm_num

lemma score_range_revenue_bounds (v : ℚ) :
    0 ≤ score_range v revenueRanges ∧ score_range v revenueRanges ≤ 1 := by
  simp only [revenueRanges, score_range]
  split_ifs <;> norm_num

lemma lookupD_cases (table : List (String × ℚ)) (key : String) (dflt : ℚ) :
    lookupD table key dflt = dflt ∨ ∃ p ∈ table, lookupD table key dflt = p.2 := by
  unfold lookupD
  cases hf : table.find? (fun kv => kv.1 == key) with
  | none => left; rfl
  | some p => right; exact ⟨p, List.mem_of_find?_eq_some hf, by simp⟩

lemma rating_score_bounds (r : String) :
    0 ≤ lookupD ratingValues r ratingDefault ∧ lookupD ratingValues r ratingDefault ≤ 1 := by
  rcases lookupD_cases ratingValues r ratingDefault with h | ⟨p, hp, h⟩ <;> rw [h]
  · norm_num [ratingDefault]
  · fin_cases hp <;> norm_num

lemma source_score_bounds (r : String) :
    0 ≤ lookupD sourceValues r sourceDefault ∧ lookupD sourceValues r sourceDefault ≤ 1 := by
  rcases lookupD_cases sourceValues r sourceDefault with h | ⟨p, hp, h⟩ <;> rw [h]
  · norm_num [sourceDefault]
  · fin_cases hp <;> norm_num

lemma foldl_condMax_bounds (cond : String × ℚ → Bool) {c : ℚ}
    (l : List (String × ℚ)) :
    ∀ {b : ℚ}, 0 ≤ b → b ≤ c → (∀ x ∈ l, x.2 ≤ c) →
      0 ≤ l.foldl (fun acc ks => if cond ks then max acc ks.2 else acc) b ∧
      l.foldl (fun acc ks => if cond ks then max acc ks.2 else acc) b ≤ c := by
  induction l with
  | nil => intro b h0 hc _; exact ⟨h0, hc⟩
  | cons x l ih =>
      intro b h0 hc hall
      simp only [List.foldl_cons]
      have hx := hall x (by simp)
      have hrest : ∀ y ∈ l, y.2 ≤ c := fun y hy => hall y (by simp [hy])
      by_cases hcx : cond x
      · simp only [hcx, if_pos]
        exact ih (le_max_of_le_left h0) (max_le hc hx) hrest
      · simp only [hcx, Bool.false_eq_true, if_false]
        exact ih h0 hc hrest

lemma score_title_bounds (t : String) : 0 ≤ score_title t ∧ score_title t ≤ 1 := by
  have hall : ∀ x ∈ titleKeywords, x.2 ≤ (1:ℚ) := by
    intro x hx
    simp only [titleKeywords, List.mem_cons, List.not_mem_nil, or_false] at hx
    rcases hx with rfl|rfl|rfl|rfl|rfl|rfl|rfl|rfl|rfl|rfl|rfl|rfl|rfl|rfl|rfl|rfl|rfl <;>
      norm_num
  have hb := @foldl_condMax_bounds (fun ks => strContains (pyLower t) ks.1) 1 titleKeywords 0
    le_rfl (by norm_num) hall
  by_cases h1 : t = ""
  · simp only [score_title, h1, if_pos]
    norm_num [titleDefault]
  · simp only [score_title, h1, if_false]
    split_ifs with h2
    · exact hb
    · norm_num [titleDefault]

lemma sapBonusOf_bounds (e : EnrichedData) : 0 ≤ sapBonusOf e ∧ sapBonusOf e ≤ 3/20 := by
  unfold sapBonusOf sapHasBp sapGoodCredit sapActiveCustomer
  split_ifs <;> norm_num

/-- The deterministic lead score, before rounding and capping, dissected. -/
lemma calculate_lead_score_total (lead : LeadData) (enriched : EnrichedData) :
    (calculate_lead_score lead enriched).total_score =
      roundTo 4 (min
        (score_range (lead.NumberOfEmployees.getD 0) employeeRanges * employeeWeight +
         score_range (lead.AnnualRevenue.getD 0) revenueRanges * revenueWeight +
         lookupD ratingValues (lead.Rating.getD "") ratingDefault * ratingWeight +
         lookupD sourceValues (lead.LeadSource.getD "") sourceDefault * sourceWeight +
         score_title (lead.Title.getD "") * titleWeight + sapBonusOf enriched) 1) := rfl

/-- C2 — For every lead record and every enrichment context (present or
absent), the deterministic scorer's total score lies in `[0.0, 1.0]`: the sum
of all weighted components plus the enrichment bonus is capped at `1.0` and is
never negative. -/
theorem C2_score_in_unit_interval (lead : LeadData) (enriched : EnrichedData) :
    0 ≤ (calculate_lead_score lead enriched).total_score ∧
    (calculate_lead_score lead enriched).total_score ≤ 1 := by
  rw [calculate_lead_score_total]
  obtain ⟨he1, he2⟩ := score_range_employee_bounds (lead.NumberOfEmployees.getD 0)
  obtain ⟨hr1, hr2⟩ := score_range_revenue_bounds (lead.AnnualRevenue.getD 0)
  obtain ⟨ha1, ha2⟩ := rating_score_bounds (lead.Rating.getD "")
  obtain ⟨hs1, hs2⟩ := source_score_bounds (lead.LeadSource.getD "")
  obtain ⟨ht1, ht2⟩ := score_title_bounds (lead.Title.getD "")
  obtain ⟨hb1, hb2⟩ := sapBonusOf_bounds enriched
  unfold employeeWeight revenueWeight ratingWeight sourceWeight titleWeight
  constructor
  · exact roundTo_nonneg (le_min (by nlinarith) (by norm_num))
  · exact roundTo_le_of_le_int (10 ^ 4) (by norm_num) (min_le_right _ _)

/-- C2 witness instantiation (the theorem itself has no hypotheses; recorded
as a concrete evaluation for the default lead). -/
theorem C2_score_in_unit_interval_witness :
    0 ≤ (calculate_lead_score {} {}).total_score ∧ (calculate_lead_score {} {}).total_score ≤ 1 :=
  C2_score_in_unit_interval {} {}

/-- C10 — Implicit: with no enrichment context the total score is at most
`0.90`, because the five component weights (employees `0.20`, revenue `0.20`,
rating `0.25`, source `0.15`, title `0.10`) sum to `0.90` and every factor is
at most `1.0`; only the SAP enrichment bonus (at most `0.15`) can raise a
score above `0.90`. -/
theorem C10_no_enrichment_cap :
    (∀ (lead : LeadData) (enriched : EnrichedData), enriched.isEmpty = true →
       (calculate_lead_score lead enriched).total_score ≤ 9/10) ∧
    (∀ enriched : EnrichedData, sapBonusOf enriched ≤ 3/20) ∧
    employeeWeight + revenueWeight + ratingWeight + sourceWeight + titleWeight = 9/10 := by
  refine ⟨?_, fun e => (sapBonusOf_bounds e).2,
    by norm_num [employeeWeight, revenueWeight, ratingWeight, sourceWeight, titleWeight]⟩
  intro lead enriched hempty
  rw [calculate_lead_score_total]
  have hbz : sapBonusOf enriched = 0 := by simp [sapBonusOf, hempty]
  obtain ⟨he1, he2⟩ := score_range_employee_bounds (lead.NumberOfEmployees.getD 0)
  obtain ⟨hr1, hr2⟩ := score_range_revenue_bounds (lead.AnnualRevenue.getD 0)
  obtain ⟨ha1, ha2⟩ := rating_score_bounds (lead.Rating.getD "")
  obtain ⟨hs1, hs2⟩ := source_score_bounds (lead.LeadSource.getD "")
  obtain ⟨ht1, ht2⟩ := score_title_bounds (lead.Title.getD "")
  refine roundTo_le_of_le_int (9 * 10 ^ 3) (by norm_num) ?_
  refine le_trans (min_le_left _ _) ?_
  rw [hbz]
  unfold employeeWeight revenueWeight ratingWeight sourceWeight titleWeight
  nlinarith

/-- C10 witness: the cap holds concretely for the all-defaults lead with the
empty enrichment context. -/
theorem C10_no_enrichment_cap_witness :
    (calculate_lead_score {} {}).total_score ≤ 9/10 :=
  C10_no_enrichment_cap.1 {} {} rfl

/-- C3 — lead routing partitions `[0,1]` into three bands with lower bounds
closed: `score ≥ 0.75` yields AE/P1; `0.45 ≤ score < 0.75` yields SDR/P2;
`score < 0.45` yields Nurture/P3; in particular `0.75 → AE/P1`,
`0.7499 → SDR/P2`, `0.45 → SDR/P2`, `0.4499 → Nurture/P3`. -/
theorem C3_routing_bands :
    (∀ s : ℚ,
      (3/4 ≤ s → (determine_routing s).owner_type = "AE" ∧ (determine_routing s).priority = "P1") ∧
      (9/20 ≤ s → s < 3/4 →
        (determine_routing s).owner_type = "SDR" ∧ (determine_routing s).priority = "P2") ∧
      (s < 9/20 →
        (determine_routing s).owner_type = "Nurture" ∧ (determine_routing s).priority = "P3")) ∧
    (determine_routing (3/4)).owner_type = "AE" ∧ (determine_routing (3/4)).priority = "P1" ∧
    (determine_routing (7499/10000)).owner_type = "SDR" ∧
    (determine_routing (7499/10000)).priority = "P2" ∧
    (determine_routing (9/20)).owner_type = "SDR" ∧ (determine_routing (9/20)).priority = "P2" ∧
    (determine_routing (4499/10000)).owner_type = "Nurture" ∧
    (determine_routing (4499/10000)).priority = "P3" := by
  constructor
  · intro s
    refine ⟨fun h => ?_, fun h1 h2 => ?_, fun h => ?_⟩ <;>
      (unfold determine_routing; split_ifs <;> first | exact ⟨rfl, rfl⟩ | (exfalso; linarith))
  · norm_num [determine_routing]

/-- C3 witness: a concrete score in the open part of the AE band. -/
theorem C3_routing_bands_witness :
    (determine_routing (8/10)).owner_type = "AE" ∧ (determine_routing (8/10)).priority = "P1" :=
  (C3_routing_bands.1 (8/10)).1 (by norm_num)

/-- C9 counterexample — two leads identical except for industry (`Technology`
vs `Retail`) receive *equal* deterministic scores, not scores differing by the
claimed table difference `0.15 - 0.03 = 0.12 ≠ 0`. -/
theorem C9_industry_ignored_counterexample :
    (calculate_lead_score { Industry := some "Technology" } {}).total_score =
      (calculate_lead_score { Industry := some "Retail" } {}).total_score ∧
    (15/100 : ℚ) - 3/100 ≠ 0 :=
  ⟨rfl, by norm_num⟩

/-- C9 amended — the deterministic score has no industry component at all:
leads identical except for `Industry` score identically.  Industry handling
exists only as the separate (never-called) `apply_industry_adjustment`, a
multiplicative adjustment capped at `1.0` over a different table (Technology
`1.1`, Financial Services `1.15`, Retail `1.0`, unknown industries such as
`Telecom` `1.0`). -/
theorem C9_no_industry_component :
    (∀ (lead : LeadData) (enriched : EnrichedData) (i₁ i₂ : Option String),
       calculate_lead_score { lead with Industry := i₁ } enriched =
       calculate_lead_score { lead with Industry := i₂ } enriched) ∧
    (∀ s : ℚ,
       apply_industry_adjustment s "Technology" = min (s * (11/10)) 1 ∧
       apply_industry_adjustment s "Financial Services" = min (s * (23/20)) 1 ∧
       apply_industry_adjustment s "Retail" = min (s * 1) 1 ∧
       apply_industry_adjustment s "Telecom" = min (s * 1) 1) := by
  constructor
  · intro lead enriched i₁ i₂; rfl
  · intro s
    refine ⟨?_, ?_, ?_, ?_⟩ <;>
      simp +decide [apply_industry_adjustment, lookupD, INDUSTRY_MULTIPLIERS, List.find?_cons]

/-!
## Merge-semantics lemmas (C4)
-/

lemma runLead_replace {α : Type} (proj : LeadState → α) (f : LeadUpdate → Option α)
    (hmerge : ∀ s u, proj (mergeLead s u) = (f u).getD (proj s)) :
    ∀ (us : List LeadUpdate) (s : LeadState),
      proj (runLead s us) = ((us.filterMap f).getLast?).getD (proj s) := by
  intro us
  induction us with
  | nil => intro s; simp [runLead]
  | cons u us ih =>
      intro s
      have h1 : runLead s (u :: us) = runLead (mergeLead s u) us := rfl
      rw [h1, ih, hmerge]
      cases hfu : f u with
      | none => simp [List.filterMap_cons, hfu]
      | some a =>
          simp only [List.filterMap_cons, hfu, Option.getD_some]
          cases hl : us.filterMap f with
          | nil => simp
          | cons b l =>
              cases hgl : (b :: l).getLast? with
              | none => simp at hgl
              | some x => simp [hgl]

lemma runLead_actions :
    ∀ (us : List LeadUpdate) (s : LeadState),
      (runLead s us).actions_done =
        s.actions_done ++ (us.map LeadUpdate.actions_done).flatten := by
  intro us
  induction us with
  | nil => intro s; simp [runLead]
  | cons u us ih =>
      intro s
      have h1 : runLead s (u :: us) = runLead (mergeLead s u) us := rfl
      rw [h1, ih]
      simp [mergeLead, List.append_assoc]

lemma runTicket_replace {α : Type} (proj : TicketState → α) (f : TicketUpdate → Option α)
    (hmerge : ∀ s u, proj (mergeTicket s u) = (f u).getD (proj s)) :
    ∀ (ts : List TicketUpdate) (t : TicketState),
      proj (runTicket t ts) = ((ts.filterMap f).getLast?).getD (proj t) := by
  intro ts
  induction ts with
  | nil => intro t; simp [runTicket]
  | cons u ts ih =>
      intro t
      have h1 : runTicket t (u :: ts) = runTicket (mergeTicket t u) ts := rfl
      rw [h1, ih, hmerge]
      cases hfu : f u with
      | none => simp [List.filterMap_cons, hfu]
      | some a =>
          simp only [List.filterMap_cons, hfu, Option.getD_some]
          cases hl : ts.filterMap f with
          | nil => simp
          | cons b l =>
              cases hgl : (b :: l).getLast? with
              | none => simp at hgl
              | some x => simp [hgl]

lemma runTicket_actions :
    ∀ (ts : List TicketUpdate) (t : TicketState),
      (runTicket t ts).actions_done =
        t.actions_done ++ (ts.map TicketUpdate.actions_done).flatten := by
  intro ts
  induction ts with
  | nil => intro t; simp [runTicket]
  | cons u ts ih =>
      intro t
      have h1 : runTicket t (u :: ts) = runTicket (mergeTicket t u) ts := rfl
      rw [h1, ih]
      simp [mergeTicket, List.append_assoc]

/-- C4 — For every sequence of pipeline steps merged into a workflow state,
the append field `actions_done` after the run equals exactly the concatenation
of each step's `actions_done` contribution in step order, while the replace
fields (`score`, `route`, `llm_analysis`, `enriched` on the lead state;
`category`, `decision`, `llm_analysis` on the ticket state) each hold the
value written by the last step that wrote them (the initial value if none
did). -/
theorem C4_state_merge_semantics (s : LeadState) (us : List LeadUpdate)
    (t : TicketState) (ts : List TicketUpdate) :
    (runLead s us).actions_done = s.actions_done ++ (us.map LeadUpdate.actions_done).flatten ∧
    (runLead s us).score = ((us.filterMap LeadUpdate.score).getLast?).getD s.score ∧
    (runLead s us).route = ((us.filterMap LeadUpdate.route).getLast?).getD s.route ∧
    (runLead s us).llm_analysis =
      ((us.filterMap LeadUpdate.llm_analysis).getLast?).getD s.llm_analysis ∧
    (runLead s us).enriched = ((us.filterMap LeadUpdate.enriched).getLast?).getD s.enriched ∧
    (runTicket t ts).actions_done =
      t.actions_done ++ (ts.map TicketUpdate.actions_done).flatten ∧
    (runTicket t ts).category = ((ts.filterMap TicketUpdate.category).getLast?).getD t.category ∧
    (runTicket t ts).decision = ((ts.filterMap TicketUpdate.decision).getLast?).getD t.decision ∧
    (runTicket t ts).llm_analysis =
      ((ts.filterMap TicketUpdate.llm_analysis).getLast?).getD t.llm_analysis :=
  ⟨runLead_actions us s,
   runLead_replace LeadState.score LeadUpdate.score (fun _ _ => rfl) us s,
   runLead_replace LeadState.route LeadUpdate.route (fun _ _ => rfl) us s,
   runLead_replace LeadState.llm_analysis LeadUpdate.llm_analysis (fun _ _ => rfl) us s,
   runLead_replace LeadState.enriched LeadUpdate.enriched (fun _ _ => rfl) us s,
   runTicket_actions ts t,
   runTicket_replace TicketState.category TicketUpdate.category (fun _ _ => rfl) ts t,
   runTicket_replace TicketState.decision TicketUpdate.decision (fun _ _ => rfl) ts t,
   runTicket_replace TicketState.llm_analysis TicketUpdate.llm_analysis (fun _ _ => rfl) ts t⟩

/-!
## Winner-selection lemmas (C5, C6)
-/

lemma pickBest_spec :
    ∀ (xs : List (String × ℚ)) (a b : String × ℚ), pickBest (some a) xs = some b →
      (b = a ∧ ∀ y ∈ xs, y.2 ≤ a.2) ∨
      (a.2 < b.2 ∧ ∃ l1 l2, xs = l1 ++ b :: l2 ∧
        (∀ y ∈ l1, y.2 < b.2) ∧ (∀ y ∈ l2, y.2 ≤ b.2)) := by
  intro xs
  induction xs with
  | nil =>
      intro a b h
      left
      simp only [pickBest, Option.some.injEq] at h
      exact ⟨h.symm, by simp⟩
  | cons x xs ih =>
      intro a b h
      by_cases hx : x.2 > a.2
      · have h' : pickBest (some x) xs = some b := by simpa [pickBest, hx] using h
        rcases ih x b h' with ⟨rfl, hall⟩ | ⟨hlt, l1, l2, hsplit, hl1, hl2⟩
        · right
          exact ⟨hx, [], xs, by simp, by simp, hall⟩
        · right
          refine ⟨lt_trans hx hlt, x :: l1, l2, by simp [hsplit], ?_, hl2⟩
          intro y hy
          rcases List.mem_cons.mp hy with rfl | hy'
          · exact hlt
          · exact hl1 y hy'
      · have h' : pickBest (some a) xs = some b := by simpa [pickBest, hx] using h
        rcases ih a b h' with ⟨rfl, hall⟩ | ⟨hlt, l1, l2, hsplit, hl1, hl2⟩
        · left
          refine ⟨rfl, ?_⟩
          intro y hy
          rcases List.mem_cons.mp hy with rfl | hy'
          · exact le_of_not_lt hx
          · exact hall y hy'
        · right
          refine ⟨hlt, x :: l1, l2, by simp [hsplit], ?_, hl2⟩
          intro y hy
          rcases List.mem_cons.mp hy with rfl | hy'
          · exact lt_of_le_of_lt (le_of_not_lt hx) hlt
          · exact hl1 y hy'

lemma pickBest_none_spec (xs : List (String × ℚ)) (b : String × ℚ)
    (h : pickBest none xs = some b) :
    ∃ l1 l2, xs = l1 ++ b :: l2 ∧ (∀ y ∈ l1, y.2 < b.2) ∧ (∀ y ∈ l2, y.2 ≤ b.2) := by
  cases xs with
  | nil => simp [pickBest] at h
  | cons x xs =>
      have h' : pickBest (some x) xs = some b := by simpa [pickBest] using h
      rcases pickBest_spec xs x b h' with ⟨rfl, hall⟩ | ⟨hlt, l1, l2, hsplit, hl1, hl2⟩
      · exact ⟨[], xs, by simp, by simp, hall⟩
      · refine ⟨x :: l1, l2, by simp [hsplit], ?_, hl2⟩
        intro y hy
        rcases List.mem_cons.mp hy with rfl | hy'
        · exact hlt
        · exact hl1 y hy'

lemma pickBest_some_total : ∀ (xs : List (String × ℚ)) (a : String × ℚ),
    ∃ b, pickBest (some a) xs = some b := by
  intro xs
  induction xs with
  | nil => intro a; exact ⟨a, rfl⟩
  | cons x xs ih =>
      intro a
      by_cases hx : x.2 > a.2
      · obtain ⟨b, hb⟩ := ih x
        exact ⟨b, by simpa [pickBest, hx] using hb⟩
      · obtain ⟨b, hb⟩ := ih a
        exact ⟨b, by simpa [pickBest, hx] using hb⟩

lemma pickBest_none_total (xs : List (String × ℚ)) (hne : xs ≠ []) :
    ∃ b, pickBest none xs = some b := by
  cases xs with
  | nil => exact absurd rfl hne
  | cons x xs =>
      obtain ⟨b, hb⟩ := pickBest_some_total xs x
      exact ⟨b, by simpa [pickBest] using hb⟩

lemma map_fst_filterMap_name_sublist (g : CatEntry → Option (String × ℚ))
    (hg : ∀ e p, g e = some p → p.1 = e.name) :
    ∀ l : List CatEntry, ((l.filterMap g).map Prod.fst).Sublist (l.map CatEntry.name) := by
  intro l
  induction l with
  | nil => simp
  | cons e l ih =>
      simp only [List.filterMap_cons, List.map_cons]
      cases hge : g e with
      | none => exact ih.trans (List.sublist_cons_self _ _)
      | some p =>
          simp only [List.map_cons]
          rw [hg e p hge]
          exact ih.cons₂ _

lemma categoryScores_names_sublist (m : String → Bool) :
    ((categoryScores m).map Prod.fst).Sublist ["security", "outage", "billing", "howto"] := by
  have h := map_fst_filterMap_name_sublist
    (fun e =>
      let ms := e.patterns.filter m
      if ms.isEmpty then none
      else some (e.name, ((ms.length : ℚ) / (e.patterns.length : ℚ)) * e.weight))
    (by
      intro e p hp
      dsimp only at hp
      by_cases hb : (e.patterns.filter m).isEmpty
      · simp [hb] at hp
      · simp only [hb, Bool.false_eq_true, if_false, Option.some.injEq] at hp
        rw [← hp])
    CATEGORY_PATTERNS
  exact h

lemma roundTo3_k5w (w : ℚ) (hw : w = 1 ∨ w = 19/20 ∨ w = 17/20 ∨ w = 7/10)
    (k : ℕ) (h1 : 1 ≤ k) (h5 : k ≤ 5) : roundTo 3 ((k:ℚ)/5 * w) = (k:ℚ)/5 * w := by
  interval_cases k <;> rcases hw with rfl|rfl|rfl|rfl <;> norm_num [roundTo, round_eq]

lemma categoryScores_mem_shape (m : String → Bool) {y : String × ℚ}
    (hy : y ∈ categoryScores m) :
    ∃ e ∈ CATEGORY_PATTERNS, y.1 = e.name ∧
      y.2 = ((e.patterns.filter m).length : ℚ) / 5 * e.weight ∧
      1 ≤ (e.patterns.filter m).length ∧ (e.patterns.filter m).length ≤ 5 := by
  obtain ⟨e, he, hFe⟩ := List.mem_filterMap.mp hy
  dsimp only at hFe
  by_cases hb : (e.patterns.filter m).isEmpty
  · simp [hb] at hFe
  · simp only [hb, Bool.false_eq_true, if_false, Option.some.injEq] at hFe
    have hlen : e.patterns.length = 5 := by fin_cases he <;> rfl
    have hk1 : 1 ≤ (e.patterns.filter m).length := by
      rcases Nat.eq_zero_or_pos (e.patterns.filter m).length with h0 | hpos
      · rw [List.length_eq_zero] at h0
        simp [h0] at hb
      · exact hpos
    have hk5 : (e.patterns.filter m).length ≤ 5 := hlen ▸ List.length_filter_le m e.patterns
    refine ⟨e, he, ?_, ?_, hk1, hk5⟩
    · rw [← hFe]
    · rw [← hFe]
      simp [hlen]

lemma categoryScores_round_id (m : String → Bool) {y : String × ℚ}
    (hy : y ∈ categoryScores m) : roundTo 3 y.2 = y.2 := by
  obtain ⟨e, he, _, hform, hk1, hk5⟩ := categoryScores_mem_shape m hy
  have hw : e.weight = 1 ∨ e.weight = 19/20 ∨ e.weight = 17/20 ∨ e.weight = 7/10 := by
    fin_cases he <;> norm_num
  rw [hform]
  exact roundTo3_k5w e.weight hw _ hk1 hk5

/-- C6 — the classifier's winning category is the one with the highest raw
score; ties break toward the category declared earlier in the table (the
scores list is in declaration order — security, outage, billing, howto — and
the winner is preceded only by strictly smaller scores and followed only by no
larger ones); when no category matches any pattern the result is `"other"`
with confidence `0.5`. -/
theorem C6_winner_first_max (m : String → Bool) :
    (categoryScores m = [] →
       (Kb.categorize_ticket m).category = "other" ∧
       (Kb.categorize_ticket m).confidence = 1/2) ∧
    (categoryScores m ≠ [] → ∃ s l1 l2,
       categoryScores m = l1 ++ ((Kb.categorize_ticket m).category, s) :: l2 ∧
       (∀ y ∈ l1, y.2 < s) ∧ (∀ y ∈ l2, y.2 ≤ s)) ∧
    ((categoryScores m).map Prod.fst).Sublist ["security", "outage", "billing", "howto"] := by
  refine ⟨?_, ?_, categoryScores_names_sublist m⟩
  · intro hempty
    have hp : pickBest none (categoryScores m) = none := by rw [hempty]; rfl
    constructor
    · simp only [Kb.categorize_ticket, hp]
    · simp only [Kb.categorize_ticket, hp]
      norm_num [roundTo, round_eq]
  · intro hne
    obtain ⟨b, hb⟩ := pickBest_none_total _ hne
    obtain ⟨bc, bs⟩ := b
    obtain ⟨l1, l2, hsplit, hl1, hl2⟩ := pickBest_none_spec _ _ hb
    have hcat : (Kb.categorize_ticket m).category = bc := by
      simp only [Kb.categorize_ticket, hb]
    exact ⟨bs, l1, l2, by rw [hcat]; exact hsplit, hl1, hl2⟩

/-- C6 witness: with no pattern matching, the result is `other`/`0.5`; with
exactly the billing pattern `\bdiscrepancy\b` matching, the winner sits in the
scores list preceded by strictly smaller scores. -/
theorem C6_winner_first_max_witness :
    ((Kb.categorize_ticket (fun _ => false)).category = "other" ∧
     (Kb.categorize_ticket (fun _ => false)).confidence = 1/2) ∧
    (∃ s l1 l2,
       categoryScores (fun p => p == "\\bdiscrepancy\\b") =
         l1 ++ ((Kb.categorize_ticket (fun p => p == "\\bdiscrepancy\\b")).category, s) :: l2 ∧
       (∀ y ∈ l1, y.2 < s) ∧ (∀ y ∈ l2, y.2 ≤ s)) :=
  ⟨(C6_winner_first_max (fun _ => false)).1 rfl,
   (C6_winner_first_max (fun p => p == "\\bdiscrepancy\\b")).2.1 (by decide)⟩

/-- C5 — the rule-based classifier scores each matched category as
`raw_score = (matched patterns / total patterns) * category_weight`, over a
table with five patterns per category and weights security `1.0`, outage
`0.95`, billing `0.85`, howto `0.70`; the returned confidence equals the
winning category's raw score (the 3-decimal rounding is the identity on every
reachable score). -/
theorem C5_classifier_raw_scores (m : String → Bool) :
    CATEGORY_PATTERNS.map (fun e => (e.name, e.patterns.length, e.weight)) =
      [("security", 5, 1), ("outage", 5, 19/20), ("billing", 5, 17/20), ("howto", 5, 7/10)] ∧
    (∀ e ∈ CATEGORY_PATTERNS, e.patterns.filter m ≠ [] →
       (e.name, ((e.patterns.filter m).length : ℚ) / 5 * e.weight) ∈ categoryScores m) ∧
    (categoryScores m ≠ [] → ∃ s,
       ((Kb.categorize_ticket m).category, s) ∈ categoryScores m ∧
       (Kb.categorize_ticket m).confidence = s) := by
  refine ⟨rfl, ?_, ?_⟩
  · intro e he hne
    apply List.mem_filterMap.mpr
    refine ⟨e, he, ?_⟩
    dsimp only
    have hb : (e.patterns.filter m).isEmpty = false := by
      simp [List.isEmpty_iff, hne]
    have hlen : e.patterns.length = 5 := by fin_cases he <;> rfl
    simp [hb, hlen]
  · intro hne
    obtain ⟨b, hb⟩ := pickBest_none_total _ hne
    obtain ⟨bc, bs⟩ := b
    obtain ⟨l1, l2, hsplit, _, _⟩ := pickBest_none_spec _ _ hb
    have hmem : (bc, bs) ∈ categoryScores m := by rw [hsplit]; simp
    have hcat : (Kb.categorize_ticket m).category = bc := by
      simp only [Kb.categorize_ticket, hb]
    have hconf : (Kb.categorize_ticket m).confidence = roundTo 3 bs := by
      simp only [Kb.categorize_ticket, hb]
    refine ⟨bs, by rw [hcat]; exact hmem, ?_⟩
    rw [hconf, categoryScores_round_id m hmem]

/-- C5 witness: with exactly the billing pattern `\bdiscrepancy\b` matching,
the returned confidence is the winner's raw score. -/
theorem C5_classifier_raw_scores_witness :
    ∃ s, ((Kb.categorize_ticket (fun p => p == "\\bdiscrepancy\\b")).category, s) ∈
        categoryScores (fun p => p == "\\bdiscrepancy\\b") ∧
      (Kb.categorize_ticket (fun p => p == "\\bdiscrepancy\\b")).confidence = s :=
  (C5_classifier_raw_scores (fun p => p == "\\bdiscrepancy\\b")).2.2 (by decide)

/-- C7 counterexample — on empty subject and description the categorize node's
returned analysis carries *no* confidence entry at all (the key is absent),
rather than an explicit confidence `0.0` as claimed. -/
theorem C7_no_confidence_counterexample :
    ((TicketGraph.categorize_ticket {} true (Except.error "llm down")
        (fun _ => false)).llm_analysis.map LLMTicketAnalysis.confidence) = some none ∧
    some (none : Option ℚ) ≠ some (some (0:ℚ)) := by
  constructor
  · rfl
  · simp

/-- C7 amended — when both subject and description are empty, classification
short-circuits to a fixed update that is independent of the LLM flag, of the
smart call's behaviour and of the pattern oracle (so no decision service is
consulted): category `"other"`, reasoning `"No content provided"`, no
escalation flag and *no confidence value* (the claim's `confidence = 0.0` is
not present — the analysis omits the key). -/
theorem C7_empty_content_short_circuit (c : CaseData) (u : Bool)
    (sm : Except String LLMTicketResult) (m : String → Bool)
    (hs : c.Subject.getD "" = "") (hd : c.Description.getD "" = "") :
    TicketGraph.categorize_ticket c u sm m =
      { category := some "other",
        llm_analysis := some { reasoning := some "No content provided" },
        actions_done := ["categorize_ticket:no_content"] } := by
  simp [TicketGraph.categorize_ticket, hs, hd, TicketCategoryOTHER]

/-- C7 witness: the empty case with a throwing smart call. -/
theorem C7_empty_content_short_circuit_witness :
    TicketGraph.categorize_ticket {} true (Except.error "llm down") (fun _ => false) =
      { category := some "other",
        llm_analysis := some { reasoning := some "No content provided" },
        actions_done := ["categorize_ticket:no_content"] } :=
  C7_empty_content_short_circuit {} true (Except.error "llm down") (fun _ => false) rfl rfl

/-- C8 counterexample — a `howto` ticket with *no* knowledge-base suggestions
is answered with `request_info`, not the claimed unconditional `auto_reply`. -/
theorem C8_howto_empty_kb_counterexample :
    (determine_ticket_action "howto" []).action = "request_info" ∧
    (determine_ticket_action "howto" []).action ≠ "auto_reply" := by
  constructor <;> simp [determine_ticket_action]

/-- C8 amended — the action mapping is: `howto` with at least one KB
suggestion → `auto_reply`, but `howto` with none → `request_info`; `billing` →
`request_info`; `outage`/`security` → `escalate` with priority raised to High
resp. Critical; every other category → `request_info`. -/
theorem C8_ticket_action_mapping (sugg : List KBSuggestion) (c : String) :
    (sugg ≠ [] → (determine_ticket_action "howto" sugg).action = "auto_reply") ∧
    (determine_ticket_action "howto" []).action = "request_info" ∧
    (determine_ticket_action "billing" sugg).action = "request_info" ∧
    (determine_ticket_action "outage" sugg).action = "escalate" ∧
    (determine_ticket_action "outage" sugg).priority_change = some "High" ∧
    (determine_ticket_action "security" sugg).action = "escalate" ∧
    (determine_ticket_action "security" sugg).priority_change = some "Critical" ∧
    (c ≠ "howto" → c ≠ "billing" → c ≠ "outage" → c ≠ "security" →
       (determine_ticket_action c sugg).action = "request_info") := by
  refine ⟨?_, ?_, ?_, ?_, ?_, ?_, ?_, ?_⟩
  · intro hne
    simp [determine_ticket_action, hne, get_response_template, RESPONSE_TEMPLATES]
  · simp [determine_ticket_action]
  · simp [determine_ticket_action]
  · simp [determine_ticket_action]
  · simp [determine_ticket_action]
  · simp [determine_ticket_action]
  · simp [determine_ticket_action]
  · intro h1 h2 h3 h4
    simp [determine_ticket_action, h1, h2, h3, h4]

/-- C8 witness: a `howto` ticket with one suggestion auto-replies; an unknown
category requests information. -/
theorem C8_ticket_action_mapping_witness :
    (determine_ticket_action "howto"
       [{ article_id := "KB0001", title := "How to Reset Your Password",
          relevance_score := 9/10,
          summary := "Step-by-step guide to reset your account password via email verification.",
          url := "/kb/articles/KB0001" }]).action = "auto_reply" ∧
    (determine_ticket_action "chatter" []).action = "request_info" :=
  ⟨(C8_ticket_action_mapping
      [{ article_id := "KB0001", title := "How to Reset Your Password",
         relevance_score := 9/10,
         summary := "Step-by-step guide to reset your account password via email verification.",
         url := "/kb/articles/KB0001" }] "chatter").1 (by simp),
   (C8_ticket_action_mapping [] "chatter").2.2.2.2.2.2.2
     (by decide) (by decide) (by decide) (by decide)⟩

/-- C1 counterexample — with `use_llm = true` and a throwing smart call, the
lead-scoring node tags the fallback result `model_used = "rule-based"`, not
the claimed `"fallback"`. -/
theorem C1_fallback_tag_counterexample :
    ((LeadGraph.score_lead { Rating := some "Hot" } {} true
        (Except.error "llm down")).llm_analysis.map LLMLeadAnalysis.model_used) =
      some (some "rule-based") ∧
    some (some "rule-based") ≠ some (some "fallback") := by
  constructor
  · rfl
  · simp

/-- C1 amended — for every non-empty lead (resp. ticket with content) and a
smart call that raises, the hybrid step never fails: it returns exactly the
update the pure rule-based path (`use_llm = false`) produces — the
deterministic score `calculate_lead_score` (resp. the deterministic
classification `kb.categorize_ticket`) — but tagged
`model_used = "rule-based"`, not `"fallback"`. -/
theorem C1_fallback_equals_rule_based :
    (∀ (l : LeadData) (e : EnrichedData) (err : String) (sm : Except String LLMScoreResult),
       LeadGraph.score_lead l e true (Except.error err) = LeadGraph.score_lead l e false sm) ∧
    (∀ (l : LeadData) (e : EnrichedData) (err : String), l.isEmpty = false →
       (LeadGraph.score_lead l e true (Except.error err)).score =
         some (calculate_lead_score l e).total_score ∧
       ((LeadGraph.score_lead l e true (Except.error err)).llm_analysis.map
          LLMLeadAnalysis.model_used) = some (some "rule-based")) ∧
    (∀ (c : CaseData) (err : String) (sm : Except String LLMTicketResult) (m : String → Bool),
       TicketGraph.categorize_ticket c true (Except.error err) m =
         TicketGraph.categorize_ticket c false sm m) ∧
    (∀ (c : CaseData) (err : String) (m : String → Bool),
       ¬(c.Subject.getD "" = "" ∧ c.Description.getD "" = "") →
       (TicketGraph.categorize_ticket c true (Except.error err) m).category =
         some (Kb.categorize_ticket m).category ∧
       ((TicketGraph.categorize_ticket c true (Except.error err) m).llm_analysis.map
          LLMTicketAnalysis.confidence) = some (some (Kb.categorize_ticket m).confidence) ∧
       ((TicketGraph.categorize_ticket c true (Except.error err) m).llm_analysis.map
          LLMTicketAnalysis.model_used) = some (some "rule-based")) := by
  refine ⟨?_, ?_, ?_, ?_⟩
  · intro l e err sm
    by_cases hl : l.isEmpty
    · simp [LeadGraph.score_lead, hl]
    · cases sm <;> simp [LeadGraph.score_lead, hl]
  · intro l e err hl
    constructor <;> simp [LeadGraph.score_lead, hl]
  · intro c err sm m
    by_cases hc : c.Subject.getD "" = "" ∧ c.Description.getD "" = ""
    · simp [TicketGraph.categorize_ticket, hc]
    · cases sm <;> simp [TicketGraph.categorize_ticket, hc]
  · intro c err m hc
    refine ⟨?_, ?_, ?_⟩ <;> simp [TicketGraph.categorize_ticket, hc]

/-- C1 witness: a `Hot` lead and a `help` ticket, each with a throwing smart
call, produce exactly the rule-based update with tag `"rule-based"` (the two
different error strings show independence from the failure). -/
theorem C1_fallback_equals_rule_based_witness :
    LeadGraph.score_lead { Rating := some "Hot" } {} true (Except.error "down") =
      LeadGraph.score_lead { Rating := some "Hot" } {} false (Except.error "other failure") ∧
    ((LeadGraph.score_lead { Rating := some "Hot" } {} true (Except.error "down")).llm_analysis.map
       LLMLeadAnalysis.model_used) = some (some "rule-based") ∧
    TicketGraph.categorize_ticket { Subject := some "help" } true (Except.error "down")
        (fun _ => false) =
      TicketGraph.categorize_ticket { Subject := some "help" } false
        (Except.error "other failure") (fun _ => false) ∧
    ((TicketGraph.categorize_ticket { Subject := some "help" } true (Except.error "down")
        (fun _ => false)).llm_analysis.map LLMTicketAnalysis.model_used) =
      some (some "rule-based") :=
  ⟨C1_fallback_equals_rule_based.1 _ _ "down" (Except.error "other failure"),
   (C1_fallback_equals_rule_based.2.1 { Rating := some "Hot" } {} "down" rfl).2,
   C1_fallback_equals_rule_based.2.2.1 _ "down" (Except.error "other failure") _,
   (C1_fallback_equals_rule_based.2.2.2 _ "down" _ (by simp)).2.2⟩
